import Mathlib

/-
Verification of the PetscMatrix adapter (libmesh, src/include/numerics/petsc_matrix.h).

The repository sources contain only the header: the class declaration, the inline
bodies of mat() and of the square add_block_matrix overload, the default arguments
of the sized init, and the semiparallel_only preprocessor definition.  The method
bodies live in petsc_matrix.C, which is not part of the sources; those operations
are modelled from the specification and from the doc comments in the header, and
each such definition is marked "Modelled from the spec" below.

Conventions of the shallow embedding: the opaque PETSc Mat handle becomes a finite
record MatModel; matrix scalars become Int; fallible operations return
Except String; the wrapper PetscMatrix holds an Option MatModel (none before init)
and the ownership flag _destroy_mat_on_exit, exactly the two data members of the
C++ class.  Destruction and clear are modelled as pure functions that also report
whether the underlying Mat storage was destroyed.
-/

namespace LibMeshPetsc

/-- Lookup in an association list of matrix entries; absent keys read as 0,
matching sparse-matrix semantics where an unstored entry is zero. -/
def alGet (k : Nat × Nat) : List ((Nat × Nat) × Int) → Int
  | [] => 0
  | e :: rest => if e.1 = k then e.2 else alGet k rest

/-- Update (or insert) a key in an association list of matrix entries. -/
def alSet (k : Nat × Nat) (v : Int) : List ((Nat × Nat) × Int) → List ((Nat × Nat) × Int)
  | [] => [(k, v)]
  | e :: rest => if e.1 = k then (k, v) :: rest else e :: alSet k v rest

/-- Modelled from the spec: the opaque PETSc Mat handle (petscmat.h is not part of
this repository).  Per the data model section it carries global and local
dimensions, the preallocation hints, the blocksize, the allocated sparsity
pattern, the stored values, and the assembly state. -/
structure MatModel where
  m : Nat
  n : Nat
  m_l : Nat
  n_l : Nat
  nnz : Nat
  noz : Nat
  blocksize : Nat
  pattern : List (Nat × Nat)
  vals : List ((Nat × Nat) × Int)
  assembled : Bool
  deriving DecidableEq

/-- Shallow embedding of the C++ class PetscMatrix: exactly its two data members,
the raw handle _mat (header line 367, absent before init) and the ownership flag
_destroy_mat_on_exit (header line 373). -/
structure PetscMatrix where
  _mat : Option MatModel
  _destroy_mat_on_exit : Bool
  deriving DecidableEq

/-- Error/success discriminator for the embedded fallible operations. -/
def isErr {α : Type} : Except String α → Bool
  | .error _ => true
  | .ok _ => false

/-- Modelled from the spec: the constructor taking only a communicator (header
lines 87-89) initializes the matrix to be empty, without any structure, not
usable at all; the wrapper owns whatever storage it later creates. -/
def PetscMatrix.mkDefault : PetscMatrix :=
  { _mat := none, _destroy_mat_on_exit := true }

/-- Modelled from the spec: the constructor taking an existing Mat (header lines
98-101); per its doc comment the Mat is NOT destroyed by the destructor, so the
handle is stored and marked borrowed. -/
def PetscMatrix.mkFromMat (mm : MatModel) : PetscMatrix :=
  { _mat := some mm, _destroy_mat_on_exit := false }

/-- Mirrors SparseMatrix::initialized(): whether init has produced a handle. -/
def PetscMatrix.initialized (p : PetscMatrix) : Bool :=
  p._mat.isSome

/-- Modelled from the spec: clear() releases owned storage and goes back to the
default-constructed state (header doc, lines 160-163).  Returns the new wrapper
state and whether the underlying Mat storage was destroyed; a borrowed handle is
never destroyed. -/
def PetscMatrix.clear (p : PetscMatrix) : PetscMatrix × Bool :=
  (PetscMatrix.mkDefault, p._mat.isSome && p._destroy_mat_on_exit)

/-- Modelled from the spec: the destructor frees all owned memory (header lines
103-107); ownership of a borrowed Mat remains with the original creator.
Returns whether the wrapped Mat storage is destroyed. -/
def PetscMatrix.destructorDestroysMat (p : PetscMatrix) : Bool :=
  (p.clear).2

/-- Embedding of the inline body mat() from header line 343:
libmesh_assert (_mat); return _mat.  The failed assertion is the error case. -/
def PetscMatrix.mat (p : PetscMatrix) : Except String MatModel :=
  match p._mat with
  | none => .error "libmesh_assert(_mat)"
  | some mm => .ok mm

/-- Modelled from the spec: the MatSetValues INSERT_VALUES call behind set(i,j,v).
Per the header doc (lines 203-206) it throws an error if the entry does not
exist, while zero values can be stored in non-existent fields (a no-op). -/
def MatModel.setValue (mm : MatModel) (i j : Nat) (v : Int) : Except String MatModel :=
  if (i, j) ∈ mm.pattern then
    .ok { mm with vals := alSet (i, j) v mm.vals, assembled := false }
  else if v = 0 then
    .ok mm
  else
    .error "MatSetValues: inserting a new nonzero outside the allocated pattern"

/-- Modelled from the spec: the MatSetValues ADD_VALUES call behind add(i,j,v).
Per the header doc (lines 212-215) it throws an error if the entry does not
exist, while zero values can be added to non-existent entries (a no-op). -/
def MatModel.addValue (mm : MatModel) (i j : Nat) (v : Int) : Except String MatModel :=
  if (i, j) ∈ mm.pattern then
    .ok { mm with vals := alSet (i, j) (alGet (i, j) mm.vals + v) mm.vals, assembled := false }
  else if v = 0 then
    .ok mm
  else
    .error "MatSetValues: adding a new nonzero outside the allocated pattern"

/-- Modelled from the spec: MatZeroEntries behind zero() — set all stored values
to 0 while retaining the sparsity structure (header doc, lines 165-168). -/
def MatModel.zeroEntries (mm : MatModel) : MatModel :=
  { mm with vals := mm.pattern.map fun k => (k, 0) }

/-- Modelled from the spec: MatAssemblyBegin/End behind close() — finalize
buffered contributions; afterwards the matrix is assembled. -/
def MatModel.close (mm : MatModel) : MatModel :=
  { mm with assembled := true }

/-- Modelled from the spec: set(i,j,value); operations on an uninitialized
wrapper must fail safely, then the call is forwarded to the library. -/
def PetscMatrix.set (p : PetscMatrix) (i j : Nat) (v : Int) : Except String PetscMatrix :=
  match p._mat with
  | none => .error "libmesh_assert(initialized())"
  | some mm => (mm.setValue i j v).map fun mm2 => { p with _mat := some mm2 }

/-- Modelled from the spec: add(i,j,value); operations on an uninitialized
wrapper must fail safely, then the call is forwarded to the library. -/
def PetscMatrix.add (p : PetscMatrix) (i j : Nat) (v : Int) : Except String PetscMatrix :=
  match p._mat with
  | none => .error "libmesh_assert(initialized())"
  | some mm => (mm.addValue i j v).map fun mm2 => { p with _mat := some mm2 }

/-- Modelled from the spec: zero() fails safely on an uninitialized wrapper,
otherwise forwards to MatZeroEntries. -/
def PetscMatrix.zero (p : PetscMatrix) : Except String PetscMatrix :=
  match p._mat with
  | none => .error "libmesh_assert(initialized())"
  | some mm => .ok { p with _mat := some mm.zeroEntries }

/-- Modelled from the spec: close() fails safely on an uninitialized wrapper,
otherwise triggers assembly. -/
def PetscMatrix.close (p : PetscMatrix) : Except String PetscMatrix :=
  match p._mat with
  | none => .error "libmesh_assert(initialized())"
  | some mm => .ok { p with _mat := some mm.close }

/-- Modelled from the spec: m() — the global row dimension, delegated to the
handle; fails safely on an uninitialized wrapper. -/
def PetscMatrix.m (p : PetscMatrix) : Except String Nat :=
  match p._mat with
  | none => .error "libmesh_assert(initialized())"
  | some mm => .ok mm.m

/-- Modelled from the spec: n() — the global column dimension, delegated to the
handle; fails safely on an uninitialized wrapper. -/
def PetscMatrix.n (p : PetscMatrix) : Except String Nat :=
  match p._mat with
  | none => .error "libmesh_assert(initialized())"
  | some mm => .ok mm.n

/-- Modelled from the spec: closed() — whether assembly has been finalized;
fails safely on an uninitialized wrapper. -/
def PetscMatrix.closed (p : PetscMatrix) : Except String Bool :=
  match p._mat with
  | none => .error "libmesh_assert(initialized())"
  | some mm => .ok mm.assembled

/-- Modelled from the spec: the sized init (header lines 121-127) allocates
distributed storage of global size m by n, local size m_l by n_l, with the
user-supplied preallocation hints nnz, noz and the blocksize; the new handle is
owned by the wrapper.  The concrete sparsity pattern that fills in afterwards
belongs to the wrapped library, so the fresh handle starts with no entries. -/
def PetscMatrix.init (p : PetscMatrix) (m n m_l n_l nnz noz blocksize : Nat) : PetscMatrix :=
  let _ := p
  { _mat := some { m := m, n := n, m_l := m_l, n_l := n_l, nnz := nnz, noz := noz,
                   blocksize := blocksize, pattern := [], vals := [], assembled := false },
    _destroy_mat_on_exit := true }

/-- Embedding of the call init(m, n, m_l, n_l) with the last three arguments
omitted: C++ fills in the header default arguments nnz=30, noz=10, blocksize=1
(header lines 125-127) at the call site. -/
def PetscMatrix.init_default_hints (p : PetscMatrix) (m n m_l n_l : Nat) : PetscMatrix :=
  p.init m n m_l n_l 30 10 1

/-- Modelled from the spec: one row of the MatSetValues ADD_VALUES scatter —
add the values rowvals of dense row i at the global columns cols, pairwise. -/
def MatModel.addRowEntries (mm : MatModel) (i : Nat) (rowvals : List Int)
    (cols : List Nat) : Except String MatModel :=
  match rowvals, cols with
  | v :: vs, j :: js => do
      let mm2 ← mm.addValue i j v
      mm2.addRowEntries i vs js
  | _, _ => .ok mm

/-- Modelled from the spec: the MatSetValues ADD_VALUES scatter behind
add_matrix — accumulate the dense block dmRows into the global entries given by
the row and column index vectors (finite-element assembly pattern). -/
def MatModel.addValues (mm : MatModel) (dmRows : List (List Int))
    (rows cols : List Nat) : Except String MatModel :=
  match dmRows, rows with
  | rv :: rvs, i :: irest => do
      let mm2 ← mm.addRowEntries i rv cols
      mm2.addValues rvs irest cols
  | _, _ => .ok mm

/-- Modelled from the spec: add_matrix(dm, rows, cols) (header lines 225-227)
fails safely on an uninitialized wrapper, otherwise scatters the dense block. -/
def PetscMatrix.add_matrix (p : PetscMatrix) (dm : List (List Int))
    (rows cols : List Nat) : Except String PetscMatrix :=
  match p._mat with
  | none => .error "libmesh_assert(initialized())"
  | some mm => (mm.addValues dm rows cols).map fun mm2 => { p with _mat := some mm2 }

/-- Modelled from the spec: the square-map overload add_matrix(dm, dof_indices)
(header lines 233-234) assumes the row and column maps are the same. -/
def PetscMatrix.add_matrix_square (p : PetscMatrix) (dm : List (List Int))
    (dof_indices : List Nat) : Except String PetscMatrix :=
  p.add_matrix dm dof_indices dof_indices

/-- Expansion of block indices into scalar indices with a given blocksize, as
MatSetValuesBlocked interprets them: block b covers rows b*bs .. b*bs+bs-1. -/
def expandBlocked (bs : Nat) : List Nat → List Nat
  | [] => []
  | b :: rest => ((List.range bs).map fun r => b * bs + r) ++ expandBlocked bs rest

/-- Modelled from the spec: add_block_matrix(dm, brows, bcols) (header lines
242-244) scatters the full dense block at the block row and column indices,
using the blocksize of the handle. -/
def PetscMatrix.add_block_matrix (p : PetscMatrix) (dm : List (List Int))
    (brows bcols : List Nat) : Except String PetscMatrix :=
  match p._mat with
  | none => .error "libmesh_assert(initialized())"
  | some mm =>
      (mm.addValues dm (expandBlocked mm.blocksize brows) (expandBlocked mm.blocksize bcols)).map
        fun mm2 => { p with _mat := some mm2 }

/-- Embedding of the inline square-map overload of add_block_matrix from header
lines 250-252, whose body in the sources is exactly
this->add_block_matrix (dm, dof_indices, dof_indices). -/
def PetscMatrix.add_block_matrix_square (p : PetscMatrix) (dm : List (List Int))
    (dof_indices : List Nat) : Except String PetscMatrix :=
  p.add_block_matrix dm dof_indices dof_indices

/-- Modelled from the spec: MatAXPY with SAME_NONZERO_PATTERN — every allocated
entry of the result holds its old value plus a times the corresponding entry of
the operand. -/
def MatModel.axpy (a : Int) (ms mx : MatModel) : MatModel :=
  { ms with vals := ms.pattern.map fun k => (k, alGet k ms.vals + a * alGet k mx.vals) }

/-- Modelled from the spec: add(a, X), computing this += a*X (header lines
254-267).  Per the header doc, X will be closed, if not already done, before
performing any work, and the two matrices need the same nonzero pattern or the
wrapped library aborts.  Returns the updated this together with the updated
operand X, since closing X mutates it. -/
def PetscMatrix.add_scaled (self : PetscMatrix) (a : Int) (X : PetscMatrix) :
    Except String (PetscMatrix × PetscMatrix) :=
  match self._mat, X._mat with
  | some ms, some mx =>
      let mx2 := if mx.assembled then mx else mx.close
      if ms.pattern = mx2.pattern then
        .ok ({ self with _mat := some (MatModel.axpy a ms mx2) },
             { X with _mat := some mx2 })
      else
        .error "MatAXPY: nonzero patterns differ"
  | _, _ => .error "libmesh_assert(initialized())"

/-- The two Mat type tags relevant to the semiparallel_only check: the serial
AIJ format MATSEQAIJ and the distributed format MATMPIAIJ. -/
inductive PetscMatType
  | seqaij
  | mpiaij
  deriving DecidableEq

/-- Embedding of the semiparallel_only preprocessor definition from header
lines 39-49: with NDEBUG undefined it runs parallel_object_only() exactly when
the wrapper is initialized and MatGetType reports MATSEQAIJ (strcmp returns 0);
with NDEBUG defined it expands to nothing.  Returns whether the
parallel_object_only consistency check runs. -/
def semiparallel_only_runs_check (ndebug : Bool) (isInit : Bool)
    (mytype : PetscMatType) : Bool :=
  if ndebug then
    false
  else
    if isInit then
      (if mytype = PetscMatType.seqaij then true else false)
    else
      false

/-- A concrete handle used by the closed witness statements: a 2 by 2 matrix
whose only allocated entry is (0,0), holding 7, not yet assembled. -/
def mmEx : MatModel :=
  { m := 2, n := 2, m_l := 2, n_l := 2, nnz := 1, noz := 0, blocksize := 1,
    pattern := [(0, 0)], vals := [((0, 0), 7)], assembled := false }

/-- A concrete initialized owning wrapper around mmEx. -/
def pEx : PetscMatrix :=
  { _mat := some mmEx, _destroy_mat_on_exit := true }

theorem alGet_alSet_self (k : Nat × Nat) (v : Int) (l : List ((Nat × Nat) × Int)) :
    alGet k (alSet k v l) = v := by
  induction l with
  | nil => simp [alSet, alGet]
  | cons e rest ih =>
      by_cases h : e.1 = k
      · simp [alSet, alGet, h]
      · simp [alSet, alGet, h, ih]

theorem alGet_map_zero (k : Nat × Nat) (l : List (Nat × Nat)) :
    alGet k (l.map fun e => (e, 0)) = 0 := by
  induction l with
  | nil => rfl
  | cons a rest ih => by_cases h : a = k <;> simp [alGet, h, ih]

/-- C1: a PetscMatrix constructed from an existing Mat has the ownership flag
set to borrowed, and for every wrapper whose flag marks the handle borrowed,
neither destruction nor clear destroys the external Mat storage; an owned
handle is destroyed on wrapper destruction. -/
theorem C1_ownership_flag :
    (∀ mm : MatModel, (PetscMatrix.mkFromMat mm)._destroy_mat_on_exit = false) ∧
    (∀ p : PetscMatrix, p._destroy_mat_on_exit = false →
        p.destructorDestroysMat = false ∧ (p.clear).2 = false) ∧
    (∀ p : PetscMatrix, p._destroy_mat_on_exit = true → p.initialized = true →
        p.destructorDestroysMat = true) := by
  refine ⟨fun mm => rfl, fun p h => ?_, fun p h hi => ?_⟩
  · constructor <;> simp [PetscMatrix.destructorDestroysMat, PetscMatrix.clear, h]
  · simp only [PetscMatrix.initialized] at hi
    simp [PetscMatrix.destructorDestroysMat, PetscMatrix.clear, h, hi]

/-- C1 witness: a wrapper built from the concrete handle mmEx is borrowed and
its destruction leaves the external Mat intact. -/
theorem C1_ownership_flag_witness :
    (PetscMatrix.mkFromMat mmEx).destructorDestroysMat = false :=
  (C1_ownership_flag.2.1 (PetscMatrix.mkFromMat mmEx) rfl).1

/-- C2: on a wrapper on which init has not been called, every embedded public
operation fails safely instead of touching the absent storage — the single-entry
writes, the dense-block and block-matrix scatters, the scaled accumulation, the
queries and the assembly trigger; in particular mat() hits its non-null
assertion. -/
theorem C2_uninitialized_fails_safely (p : PetscMatrix) (h : p._mat = none)
    (i j : Nat) (v : Int) (a : Int) (X : PetscMatrix) (dm : List (List Int))
    (rows cols idx : List Nat) :
    isErr p.mat = true ∧ isErr (p.set i j v) = true ∧ isErr (p.add i j v) = true ∧
    isErr p.zero = true ∧ isErr p.close = true ∧ isErr p.m = true ∧
    isErr p.n = true ∧ isErr p.closed = true ∧
    isErr (p.add_matrix dm rows cols) = true ∧
    isErr (p.add_matrix_square dm idx) = true ∧
    isErr (p.add_block_matrix dm rows cols) = true ∧
    isErr (p.add_block_matrix_square dm idx) = true ∧
    isErr (p.add_scaled a X) = true := by
  refine ⟨?_, ?_, ?_, ?_, ?_, ?_, ?_, ?_, ?_, ?_, ?_, ?_, ?_⟩ <;>
    simp [PetscMatrix.mat, PetscMatrix.set, PetscMatrix.add, PetscMatrix.zero,
          PetscMatrix.close, PetscMatrix.m, PetscMatrix.n, PetscMatrix.closed,
          PetscMatrix.add_matrix, PetscMatrix.add_matrix_square,
          PetscMatrix.add_block_matrix, PetscMatrix.add_block_matrix_square,
          PetscMatrix.add_scaled, h, isErr]

/-- C2 witness: the default-constructed wrapper rejects mat(). -/
theorem C2_uninitialized_fails_safely_witness :
    isErr PetscMatrix.mkDefault.mat = true :=
  (C2_uninitialized_fails_safely PetscMatrix.mkDefault rfl 0 0 1 2 pEx [[3]]
    [0] [0] [0]).1

/-- C3 counterexample: on the concrete wrapper pEx the entry (1,1) lies outside
the allocated pattern, yet set(1,1,0) and add(1,1,0) succeed and leave the
state unchanged — refuting the claim that set and add fail whenever the entry
lies outside the pattern, for every value. -/
theorem C3_counterexample_zero_value :
    (1, 1) ∉ mmEx.pattern ∧ pEx.set 1 1 0 = Except.ok pEx ∧
    pEx.add 1 1 0 = Except.ok pEx := by
  refine ⟨by decide, rfl, rfl⟩

/-- C3 (amended): for an initialized matrix, set(i,j,v) and add(i,j,v) fail
whenever (i,j) lies outside the allocated sparsity pattern and v is nonzero
(zero values are accepted as no-ops), and succeed whenever (i,j) lies inside
the pattern, writing respectively accumulating v at (i,j). -/
theorem C3_amended_set_add (p : PetscMatrix) (mm : MatModel) (i j : Nat) (v : Int)
    (hm : p._mat = some mm) :
    (((i, j) ∉ mm.pattern ∧ v ≠ 0) →
        isErr (p.set i j v) = true ∧ isErr (p.add i j v) = true) ∧
    ((i, j) ∈ mm.pattern →
        ∃ mmS mmA : MatModel,
          p.set i j v = .ok { p with _mat := some mmS } ∧
          alGet (i, j) mmS.vals = v ∧
          p.add i j v = .ok { p with _mat := some mmA } ∧
          alGet (i, j) mmA.vals = alGet (i, j) mm.vals + v) := by
  constructor
  · rintro ⟨hout, hv⟩
    constructor <;>
      simp [PetscMatrix.set, PetscMatrix.add, MatModel.setValue, MatModel.addValue,
            hm, hout, hv, isErr, Except.map]
  · intro hin
    refine ⟨{ mm with vals := alSet (i, j) v mm.vals, assembled := false },
            { mm with vals := alSet (i, j) (alGet (i, j) mm.vals + v) mm.vals, assembled := false },
            ?_, ?_, ?_, ?_⟩
    · simp [PetscMatrix.set, MatModel.setValue, hm, hin, Except.map]
    · exact alGet_alSet_self _ _ _
    · simp [PetscMatrix.add, MatModel.addValue, hm, hin, Except.map]
    · exact alGet_alSet_self _ _ _

/-- C3 witness: on pEx, set and add of the nonzero value 5 at the
out-of-pattern entry (1,1) fail. -/
theorem C3_amended_set_add_witness :
    isErr (pEx.set 1 1 5) = true ∧ isErr (pEx.add 1 1 5) = true :=
  (C3_amended_set_add pEx mmEx 1 1 5 rfl).1 ⟨by decide, by decide⟩

/-- C4: for an initialized matrix and an entry outside the allocated pattern,
set(i,j,0) and add(i,j,0) do not raise an error and leave the wrapper state
unchanged. -/
theorem C4_zero_value_outside_pattern_ok (p : PetscMatrix) (mm : MatModel)
    (i j : Nat) (hm : p._mat = some mm) (hout : (i, j) ∉ mm.pattern) :
    p.set i j 0 = .ok p ∧ p.add i j 0 = .ok p := by
  cases p with
  | mk om fl =>
      have h2 : om = some mm := hm
      subst h2
      constructor <;>
        simp [PetscMatrix.set, PetscMatrix.add, MatModel.setValue, MatModel.addValue,
              hout, Except.map]

/-- C4 witness: on pEx, storing and adding 0 at the out-of-pattern entry (1,1)
succeeds and returns the unchanged wrapper. -/
theorem C4_zero_value_outside_pattern_ok_witness :
    pEx.set 1 1 0 = Except.ok pEx ∧ pEx.add 1 1 0 = Except.ok pEx :=
  C4_zero_value_outside_pattern_ok pEx mmEx 1 1 rfl (by decide)

/-- C5: zero() on an initialized matrix sets every stored value to zero while
leaving the allocated pattern and the matrix dimensions unchanged. -/
theorem C5_zero_preserves_structure (p : PetscMatrix) (mm : MatModel)
    (h : p._mat = some mm) :
    p.zero = .ok { p with _mat := some mm.zeroEntries } ∧
    mm.zeroEntries.pattern = mm.pattern ∧
    mm.zeroEntries.m = mm.m ∧ mm.zeroEntries.n = mm.n ∧
    (∀ i j : Nat, alGet (i, j) mm.zeroEntries.vals = 0) := by
  refine ⟨?_, rfl, rfl, rfl, fun i j => alGet_map_zero _ _⟩
  simp [PetscMatrix.zero, h]

/-- C5 witness: zeroing pEx. -/
theorem C5_zero_preserves_structure_witness :
    pEx.zero = Except.ok { pEx with _mat := some mmEx.zeroEntries } :=
  (C5_zero_preserves_structure pEx mmEx rfl).1

/-- C6: clear() returns the wrapper to the default-constructed uninitialized
state for every starting state, and it destroys the underlying storage exactly
when the wrapper is initialized and owns its handle. -/
theorem C6_clear_returns_to_default (p : PetscMatrix) :
    (p.clear).1 = PetscMatrix.mkDefault ∧
    (p.clear).2 = (p.initialized && p._destroy_mat_on_exit) :=
  ⟨rfl, rfl⟩

/-- C7: the semiparallel_only check is debug-only — with NDEBUG defined it
expands to nothing, and in debug builds it runs the parallel-consistency check
exactly on an initialized wrapper whose Mat type is the serial MATSEQAIJ. -/
theorem C7_semiparallel_only_debug (ndebug isInit : Bool) (t : PetscMatType) :
    (ndebug = true → semiparallel_only_runs_check ndebug isInit t = false) ∧
    (semiparallel_only_runs_check ndebug isInit t = true ↔
      ndebug = false ∧ isInit = true ∧ t = PetscMatType.seqaij) := by
  cases ndebug <;> cases isInit <;> cases t <;>
    simp [semiparallel_only_runs_check]

/-- C7 witness: with NDEBUG defined the check does nothing even on an
initialized serial matrix. -/
theorem C7_semiparallel_only_debug_witness :
    semiparallel_only_runs_check true true PetscMatType.seqaij = false :=
  (C7_semiparallel_only_debug true true PetscMatType.seqaij).1 rfl

/-- C8: the square-map overloads coincide with the two-index-set versions at
identical row and column index sets, for add_matrix and add_block_matrix. -/
theorem C8_square_overloads (p : PetscMatrix) (dm : List (List Int))
    (idx : List Nat) :
    p.add_matrix_square dm idx = p.add_matrix dm idx idx ∧
    p.add_block_matrix_square dm idx = p.add_block_matrix dm idx idx :=
  ⟨rfl, rfl⟩

/-- C9: the sized init called without explicit preallocation hints uses the
header defaults nnz=30, noz=10, blocksize=1, and produces the same state as the
fully explicit call with those constants. -/
theorem C9_init_default_hints (p : PetscMatrix) (m n m_l n_l : Nat) :
    p.init_default_hints m n m_l n_l = p.init m n m_l n_l 30 10 1 ∧
    ∃ mm : MatModel, (p.init_default_hints m n m_l n_l)._mat = some mm ∧
      mm.nnz = 30 ∧ mm.noz = 10 ∧ mm.blocksize = 1 ∧
      mm.m = m ∧ mm.n = n ∧ mm.m_l = m_l ∧ mm.n_l = n_l :=
  ⟨rfl, _, rfl, rfl, rfl, rfl, rfl, rfl, rfl, rfl⟩

/-- C10: add(a, X) closes the operand X first whenever X is not yet assembled,
the accumulation this += a*X then uses the closed operand, and the operand
state returned by the call is assembled — so X is mutated as a side effect. -/
theorem C10_add_scaled_closes_operand (self X : PetscMatrix) (a : Int)
    (ms mx : MatModel) (hs : self._mat = some ms) (hx : X._mat = some mx)
    (hpat : ms.pattern = mx.pattern) :
    self.add_scaled a X =
      .ok ({ self with
             _mat := some (MatModel.axpy a ms (if mx.assembled then mx else mx.close)) },
           { X with _mat := some (if mx.assembled then mx else mx.close) }) ∧
    (if mx.assembled then mx else mx.close).assembled = true ∧
    (mx.assembled = false → (if mx.assembled then mx else mx.close) = mx.close) := by
  refine ⟨?_, ?_, ?_⟩
  · cases hA : mx.assembled <;>
      simp [PetscMatrix.add_scaled, hs, hx, hA, MatModel.close, hpat]
  · cases hA : mx.assembled <;> simp [hA, MatModel.close]
  · intro hA
    simp [hA]

/-- C10 witness: accumulating 2 times pEx into pEx closes the not-yet-assembled
operand before the accumulation. -/
theorem C10_add_scaled_closes_operand_witness :
    pEx.add_scaled 2 pEx =
      Except.ok
        ({ pEx with
           _mat := some (MatModel.axpy 2 mmEx (if mmEx.assembled then mmEx else mmEx.close)) },
         { pEx with _mat := some (if mmEx.assembled then mmEx else mmEx.close) }) :=
  (C10_add_scaled_closes_operand pEx pEx 2 mmEx mmEx rfl rfl rfl).1

end LibMeshPetsc
